import Mathlib

/-! Verification of the live-refresh coordination core of the Disaster
    repository (`disaster_check2.py`, with `disaster_check.py` as the earlier
    variant).  Python functions are shallowly embedded as Lean functions: the
    JSON config file content becomes the `Config` structure, the HTTP handler
    becomes a pure function from the raw request path to an `Except` value
    (a Python exception escaping the handler is `Except.error`), wall-clock
    timestamps are rationals, and the float arithmetic of the geometry layer
    is embedded on exact reals. -/

namespace DisasterCheck

/-- Python exceptions that can escape the embedded fragments. -/
inductive PyError where
  | indexError
  | keyError
  | valueError
  | jsonDecodeError
  deriving DecidableEq

/-- Content of `refresh_config.json`: the key `refresh_interval` is always
present, the key `disaster_range` may be absent (`get_disaster_range`
defaults it to 241). -/
structure Config where
  refresh_interval : Int
  disaster_range : Option Int
  deriving DecidableEq

/-- Embeds `get_refresh_interval` (disaster_check2.py lines 245-248): the value
stored under the `refresh_interval` key of the config record. -/
def get_refresh_interval (c : Config) : Int :=
  c.refresh_interval

/-- Embeds `update_refresh_interval` (lines 250-255): read the record, replace
the `refresh_interval` key, write the record back.  The value is not
validated. -/
def update_refresh_interval (c : Config) (new_interval : Int) : Config :=
  { c with refresh_interval := new_interval }

/-- Embeds `get_disaster_range` (lines 257-260): `config.get('disaster_range',
241)`. -/
def get_disaster_range (c : Config) : Int :=
  c.disaster_range.getD 241

/-- Embeds `update_disaster_range` (lines 262-267): read the record, set the
`disaster_range` key, write the record back.  The value is not validated. -/
def update_disaster_range (c : Config) (new_range : Int) : Config :=
  { c with disaster_range := some new_range }

/-- Embeds the watchdog condition of the `__main__` serving loop (line 342):
`time.time() - last_heartbeat > 30`. -/
def watchdog_expired (now last_heartbeat : ℚ) : Bool :=
  decide (now - last_heartbeat > 30)

/-- Splits a character list at every occurrence of `sep`; the behaviour of
Python's `str.split` with a one-character separator. -/
def splitOnChar (sep : Char) : List Char → List (List Char)
  | [] => [[]]
  | c :: cs =>
    if c = sep then [] :: splitOnChar sep cs
    else
      match splitOnChar sep cs with
      | [] => [[c]]
      | g :: gs => (c :: g) :: gs

/-- Character-list version of Python's `str.startswith`. -/
def startsWithChars : List Char → List Char → Bool
  | [], _ => true
  | _ :: _, [] => false
  | p :: ps, c :: cs => p == c && startsWithChars ps cs

/-- Decimal-digit accumulator used by `pyInt`. -/
def digitsVal (acc : Nat) : List Char → Option Nat
  | [] => some acc
  | c :: cs => if c.isDigit then digitsVal (10 * acc + (c.toNat - 48)) cs else none

/-- Model of Python's `int` constructor on the strings the control page can
send: an optional sign followed by one or more decimal digits, anything else
raising `ValueError` (surrounding whitespace and underscore separators, which
Python also tolerates, never occur on this wire and are not modelled). -/
def pyInt (s : List Char) : Option Int :=
  match s with
  | [] => none
  | c :: cs =>
    if c = '-' then
      (if cs = [] then none else (digitsVal 0 cs).map fun v => -(v : Int))
    else if c = '+' then
      (if cs = [] then none else (digitsVal 0 cs).map fun v => (v : Int))
    else
      (digitsVal 0 (c :: cs)).map fun v => (v : Int)

/-- Model of `urllib.parse.parse_qs` restricted to first values: split the
query on `&`, then each field on `=`; fields without a value part are dropped
(the default `keep_blank_values=False`). -/
def parse_qs (q : List Char) : List (List Char × List Char) :=
  (splitOnChar '&' q).filterMap fun field =>
    match splitOnChar '=' field with
    | [k, v] => if v = [] then none else some (k, v)
    | _ => none

/-- Embeds `fetch_and_update_map` (lines 229-243).  The GDACS fetch, the CSV
load and the folium rendering are external collaborators whose combined
outcome is the `fetch` argument.  The whole body runs inside `try/except`, so
a collaborator error is caught and printed and the function returns `None`;
on success the map is rebuilt with `get_disaster_range()` read from the
current config, and the radius used is recorded.  The config is never
written. -/
def fetch_and_update_map (c : Config) (fetch : Except PyError Unit) : Config × Option Int :=
  match fetch with
  | .ok _ => (c, some (get_disaster_range c))
  | .error _ => (c, none)

/-- One tick of `update_map_periodically` (lines 269-274): read the interval,
run `fetch_and_update_map`, then sleep for the interval just read.  The result
is the config after the tick, the seconds slept, and the radius used by the
refresh (`none` when the tick's collaborators failed). -/
def update_map_tick (c : Config) (fetch : Except PyError Unit) : Config × Int × Option Int :=
  let interval := get_refresh_interval c
  let r := fetch_and_update_map c fetch
  (r.1, interval, r.2)

/-- The scheduler loop over a finite schedule of ticks; each tick sees the
config current at its start (the control thread may have rewritten the file in
between) and the outcome of its fetch/render collaborators. -/
def update_map_periodically (ticks : List (Config × Except PyError Unit)) :
    List (Config × Int × Option Int) :=
  ticks.map fun t => update_map_tick t.1 t.2

/-- HTTP response produced by `CustomHandler.do_GET`; paths outside the three
control routes fall through to `SimpleHTTPRequestHandler`'s static file
serving. -/
inductive HttpResponse where
  | plain (status : Nat) (body : List Char)
  | staticFile
  deriving DecidableEq

/-- Result of a `do_GET` call that did not raise: the config after the
request, the heartbeat timestamp after the request, the forced refresh run by
the disaster-range route (`none` when no refresh was attempted, `some r` with
`r` the radius actually read, or `some none` when the refresh collaborators
failed), and the response sent. -/
structure HandlerResult where
  config : Config
  last_heartbeat : ℚ
  forced_refresh : Option (Option Int)
  response : HttpResponse
  deriving DecidableEq

/-- Embeds `CustomHandler.do_GET` (lines 277-306) as a function of the raw
request path.  A Python exception escaping the handler body is
`Except.error`: `IndexError` from `split('?')[1]` when the path carries no
query, `KeyError` from the query-dict lookup, `ValueError` from `int()`.  The
disaster-range route writes the store and then synchronously runs
`fetch_and_update_map` before the response; the heartbeat route assigns
`time.time()` to `last_heartbeat` unconditionally. -/
def do_GET (c : Config) (last_heartbeat now : ℚ) (path : List Char)
    (fetch : Except PyError Unit) : Except PyError HandlerResult :=
  if startsWithChars "/update_refresh_rate".data path then
    match (splitOnChar '?' path)[1]? with
    | none => .error .indexError
    | some q =>
      match (parse_qs q).lookup "interval".data with
      | none => .error .keyError
      | some v =>
        match pyInt v with
        | none => .error .valueError
        | some n =>
          .ok ⟨update_refresh_interval c n, last_heartbeat, none,
            .plain 200 "Refresh interval updated".data⟩
  else if startsWithChars "/update_disaster_range".data path then
    match (splitOnChar '?' path)[1]? with
    | none => .error .indexError
    | some q =>
      match (parse_qs q).lookup "range".data with
      | none => .error .keyError
      | some v =>
        match pyInt v with
        | none => .error .valueError
        | some n =>
          let c2 := update_disaster_range c n
          .ok ⟨c2, last_heartbeat, some (fetch_and_update_map c2 fetch).2,
            .plain 200 "Disaster range updated and map refreshed".data⟩
  else if path = "/heartbeat".data then
    .ok ⟨c, now, none, .plain 200 "Heartbeat received".data⟩
  else
    .ok ⟨c, last_heartbeat, none, .staticFile⟩

/-- State shared by the two threads: the config file content and the module
global `last_heartbeat`. -/
structure ServerState where
  config : Config
  last_heartbeat : ℚ
  deriving DecidableEq

/-- One iteration of the serving loop (lines 340-341): `server.handle_request()`
services a single request.  When `do_GET` raises, the `socketserver` machinery
(`handle_error`) catches the exception, prints the traceback and closes the
connection, so the loop survives with the shared state untouched and no
response at all is sent for that request. -/
def serverStep (st : ServerState) (now : ℚ) (path : List Char)
    (fetch : Except PyError Unit) : ServerState × Option HttpResponse :=
  match do_GET st.config st.last_heartbeat now path fetch with
  | .ok r => (⟨r.config, r.last_heartbeat⟩, some r.response)
  | .error _ => (st, none)

/-- Raw content of `refresh_config.json` as the other thread can observe it:
either a complete JSON record, or the truncated/partially written file that
exists while an updater is between `open(..., 'w')` (which erases the file)
and the end of `json.dump`. -/
inductive FileState where
  | content (c : Config)
  | truncated
  deriving DecidableEq

/-- Reading the config file with `json.load`: a truncated or partially written
file is not valid JSON and raises `JSONDecodeError`. -/
def read_config_file : FileState → Except PyError Config
  | .content c => .ok c
  | .truncated => .error .jsonDecodeError

/-- `get_refresh_interval` as executed against the raw file, the form in which
the scheduler thread calls it at line 271, outside any `try`. -/
def get_refresh_interval_from_file (fs : FileState) : Except PyError Int :=
  match read_config_file fs with
  | .ok c => .ok (get_refresh_interval c)
  | .error e => .error e

/-- Successive file contents observable while `update_refresh_interval` runs
with no lock held: the old record, then the truncated file left by
`open('refresh_config.json', 'w')`, then the new record. -/
def update_refresh_interval_file_states (old : Config) (n : Int) : List FileState :=
  [.content old, .truncated, .content (update_refresh_interval old n)]

/-- Splitting a list free of the separator yields the single original group. -/
theorem splitOnChar_of_not_mem {sep : Char} {l : List Char} (h : sep ∉ l) :
    splitOnChar sep l = [l] := by
  induction l with
  | nil => rfl
  | cons c cs ih =>
    have hc : ¬ c = sep := fun hc => h (hc ▸ List.mem_cons_self c cs)
    have hcs : sep ∉ cs := fun hm => h (List.mem_cons_of_mem _ hm)
    simp [splitOnChar, hc, ih hcs]

/-- Splitting at the first separator occurrence detaches the leading group. -/
theorem splitOnChar_append {sep : Char} {a b : List Char} (ha : sep ∉ a) :
    splitOnChar sep (a ++ sep :: b) = a :: splitOnChar sep b := by
  induction a with
  | nil => simp [splitOnChar]
  | cons c cs ih =>
    have hc : ¬ c = sep := fun hc => ha (hc ▸ List.mem_cons_self c cs)
    have hcs : sep ∉ cs := fun hm => ha (List.mem_cons_of_mem _ hm)
    simp [splitOnChar, hc, ih hcs]

/-- Any string accepted by `digitsVal` consists of decimal digits. -/
theorem digitsVal_all_digits {s : List Char} :
    ∀ {acc v : Nat}, digitsVal acc s = some v → ∀ c ∈ s, c.isDigit = true := by
  induction s with
  | nil =>
    intro acc v _ c hc
    cases hc
  | cons d ds ih =>
    intro acc v h c hc
    simp only [digitsVal] at h
    by_cases hd : d.isDigit = true
    · rw [if_pos hd] at h
      rcases List.mem_cons.mp hc with hcd | hcs
      · rw [hcd]; exact hd
      · exact ih h c hcs
    · rw [if_neg hd] at h
      cases h

/-- A string accepted by Python's `int` is nonempty. -/
theorem pyInt_ne_nil {s : List Char} {n : Int} (h : pyInt s = some n) : s ≠ [] := by
  intro he
  subst he
  simp [pyInt] at h

/-- Every character of a string accepted by Python's `int` is a sign or a
decimal digit. -/
theorem pyInt_chars {s : List Char} {n : Int} (h : pyInt s = some n) :
    ∀ c ∈ s, c = '-' ∨ c = '+' ∨ c.isDigit = true := by
  cases s with
  | nil => cases h
  | cons c cs =>
    intro d hd
    simp only [pyInt] at h
    by_cases hm : c = '-'
    · rw [if_pos hm] at h
      by_cases hnil : cs = []
      · rw [if_pos hnil] at h; cases h
      · rw [if_neg hnil] at h
        rcases List.mem_cons.mp hd with h1 | h1
        · exact Or.inl (h1.trans hm)
        · cases hv : digitsVal 0 cs with
          | none => rw [hv] at h; cases h
          | some v => exact Or.inr (Or.inr (digitsVal_all_digits hv d h1))
    · rw [if_neg hm] at h
      by_cases hp : c = '+'
      · rw [if_pos hp] at h
        by_cases hnil : cs = []
        · rw [if_pos hnil] at h; cases h
        · rw [if_neg hnil] at h
          rcases List.mem_cons.mp hd with h1 | h1
          · exact Or.inr (Or.inl (h1.trans hp))
          · cases hv : digitsVal 0 cs with
            | none => rw [hv] at h; cases h
            | some v => exact Or.inr (Or.inr (digitsVal_all_digits hv d h1))
      · rw [if_neg hp] at h
        cases hv : digitsVal 0 (c :: cs) with
        | none => rw [hv] at h; cases h
        | some v => exact Or.inr (Or.inr (digitsVal_all_digits hv d hd))

/-- A character that is no sign and no digit cannot occur in a string accepted
by Python's `int`. -/
theorem pyInt_not_mem {s : List Char} {n : Int} (h : pyInt s = some n)
    {c : Char} (h1 : c ≠ '-') (h2 : c ≠ '+') (h3 : c.isDigit = false) : c ∉ s := by
  intro hc
  rcases pyInt_chars h c hc with hx | hx | hx
  · exact h1 hx
  · exact h2 hx
  · rw [hx] at h3
    cases h3

/-- C1 (amended): `update_refresh_interval` and `update_disaster_range` apply
any value without validating positivity, and a subsequent read returns
exactly the written value. -/
theorem C1_writes_unvalidated (c : Config) (v : Int) :
    get_refresh_interval (update_refresh_interval c v) = v ∧
      get_disaster_range (update_disaster_range c v) = v :=
  ⟨rfl, rfl⟩

/-- C1 counterexample: writing the non-positive value `-5` to the hazard
radius does not fail with any error; the store is changed and a subsequent
read returns `-5`, not the prior valid default `241`. -/
theorem C1_counterexample :
    get_disaster_range (update_disaster_range ⟨3600, none⟩ (-5)) = -5 ∧
      get_disaster_range ⟨3600, none⟩ = 241 ∧
      update_disaster_range ⟨3600, none⟩ (-5) ≠ ⟨3600, none⟩ :=
  ⟨rfl, rfl, by decide⟩

/-- C2 (amended): the heartbeat route assigns the current wall-clock time to
the stored `last_heartbeat` unconditionally; there is no monotonic guard
comparing it with the stored value. -/
theorem C2_heartbeat_unconditional (c : Config) (last now : ℚ)
    (f : Except PyError Unit) :
    do_GET c last now "/heartbeat".data f =
      .ok ⟨c, now, none, .plain 200 "Heartbeat received".data⟩ :=
  rfl

/-- C2 counterexample: with stored `last_heartbeat = 10`, a heartbeat serviced
when the clock reads `5` moves the stored value backward to `5`. -/
theorem C2_counterexample :
    (serverStep ⟨⟨3600, some 241⟩, 10⟩ 5 "/heartbeat".data (.ok ())).1.last_heartbeat = 5 ∧
      (5 : ℚ) < 10 :=
  ⟨rfl, by norm_num⟩

/-- C4: the watchdog check is true exactly when `now - last_heartbeat` exceeds
the 30-second timeout; 31 seconds after the last heartbeat it fires, 29
seconds after it does not. -/
theorem C4_watchdog_expired_iff :
    (∀ now last : ℚ, watchdog_expired now last = true ↔ now - last > 30) ∧
      ∀ t0 : ℚ, watchdog_expired (t0 + 31) t0 = true ∧
        watchdog_expired (t0 + 29) t0 = false := by
  refine ⟨fun now last => by simp [watchdog_expired], fun t0 => ⟨?_, ?_⟩⟩
  · show decide (t0 + 31 - t0 > 30) = true
    rw [show t0 + 31 - t0 = (31 : ℚ) by ring]
    decide
  · show decide (t0 + 29 - t0 > 30) = false
    rw [show t0 + 29 - t0 = (29 : ℚ) by ring]
    decide

/-- C6 (amended): the malformed-request shapes (query absent, field missing,
non-numeric or non-integeral value) make the handler raise instead of
answering; the serving loop survives the raised exception with the store and
heartbeat state untouched, and no response at all - in particular no
client-error response - is sent on that request. -/
theorem C6_malformed_requests (st : ServerState) (now : ℚ) (f : Except PyError Unit) :
    (do_GET st.config st.last_heartbeat now "/update_refresh_rate".data f =
        .error .indexError ∧
      serverStep st now "/update_refresh_rate".data f = (st, none)) ∧
    (do_GET st.config st.last_heartbeat now "/update_refresh_rate?wrong=5".data f =
        .error .keyError ∧
      serverStep st now "/update_refresh_rate?wrong=5".data f = (st, none)) ∧
    (do_GET st.config st.last_heartbeat now "/update_refresh_rate?interval=abc".data f =
        .error .valueError ∧
      serverStep st now "/update_refresh_rate?interval=abc".data f = (st, none)) ∧
    (do_GET st.config st.last_heartbeat now "/update_disaster_range?range=12.5".data f =
        .error .valueError ∧
      serverStep st now "/update_disaster_range?range=12.5".data f = (st, none)) :=
  ⟨⟨rfl, rfl⟩, ⟨rfl, rfl⟩, ⟨rfl, rfl⟩, ⟨rfl, rfl⟩⟩

/-- C6 counterexample: the request `update_refresh_rate?interval=abc` makes
the handler raise `ValueError`; the serving loop keeps the old state but sends
no response for the request, so the error is not reported to the client as a
client error. -/
theorem C6_counterexample :
    do_GET ⟨3600, some 241⟩ 0 1 "/update_refresh_rate?interval=abc".data (.ok ()) =
        .error .valueError ∧
      serverStep ⟨⟨3600, some 241⟩, 0⟩ 1 "/update_refresh_rate?interval=abc".data (.ok ()) =
        (⟨⟨3600, some 241⟩, 0⟩, none) :=
  ⟨rfl, rfl⟩

/-- C7: a collaborator error during a tick is caught inside
`fetch_and_update_map`; the tick completes normally with the store untouched,
sleeps for the interval read at the start of that same tick, and the loop goes
on to process every remaining tick (one record per scheduled tick, failed or
not). -/
theorem C7_failed_tick_continues (c : Config) (e : PyError)
    (rest : List (Config × Except PyError Unit)) :
    update_map_tick c (.error e) = (c, get_refresh_interval c, none) ∧
      update_map_periodically ((c, .error e) :: rest) =
        (c, get_refresh_interval c, none) :: update_map_periodically rest ∧
      ∀ ticks : List (Config × Except PyError Unit),
        (update_map_periodically ticks).length = ticks.length :=
  ⟨rfl, rfl, fun ticks => List.length_map ticks _⟩

/-- C8: with no lock around the file-backed store, the truncated file is among
the states observable while `update_refresh_interval` rewrites
`refresh_config.json`, and a concurrent `get_refresh_interval` reading that
state raises `JSONDecodeError` instead of returning a value - the torn read
the claim rules out. -/
theorem C8_torn_read :
    FileState.truncated ∈ update_refresh_interval_file_states ⟨3600, some 241⟩ 600 ∧
      get_refresh_interval_from_file .truncated = .error .jsonDecodeError :=
  ⟨by decide, rfl⟩

/-- C3: for a well-formed `update_disaster_range` request the handler writes
the new radius to the store and then synchronously runs `fetch_and_update_map`
against the freshly written config - the forced refresh reads exactly the new
radius `n`, never a stale one - and only then produces the 200 response. -/
theorem C3_radius_update_synchronous (c : Config) (last now : ℚ) (s : List Char)
    (n : Int) (hs : pyInt s = some n) :
    do_GET c last now ("/update_disaster_range?range=".data ++ s) (.ok ()) =
      .ok ⟨update_disaster_range c n, last, some (some n),
        .plain 200 "Disaster range updated and map refreshed".data⟩ := by
  have hq : '?' ∉ s := pyInt_not_mem hs (by decide) (by decide) (by decide)
  have ha : '&' ∉ s := pyInt_not_mem hs (by decide) (by decide) (by decide)
  have he : '=' ∉ s := pyInt_not_mem hs (by decide) (by decide) (by decide)
  have hnil : s ≠ [] := pyInt_ne_nil hs
  have e1 : startsWithChars "/update_refresh_rate".data
      ("/update_disaster_range?range=".data ++ s) = false := rfl
  have e2 : startsWithChars "/update_disaster_range".data
      ("/update_disaster_range?range=".data ++ s) = true := rfl
  have e3 : splitOnChar '?' ("/update_disaster_range?range=".data ++ s) =
      ["/update_disaster_range".data, "range=".data ++ s] := by
    rw [show "/update_disaster_range?range=".data ++ s =
        "/update_disaster_range".data ++ '?' :: ("range=".data ++ s) from rfl]
    rw [splitOnChar_append (by decide)]
    rw [splitOnChar_of_not_mem]
    intro hm
    rcases List.mem_append.mp hm with hm | hm
    · revert hm; decide
    · exact hq hm
  have e4 : parse_qs ("range=".data ++ s) = [("range".data, s)] := by
    rw [parse_qs]
    rw [splitOnChar_of_not_mem (l := "range=".data ++ s)]
    · rw [show ("range=".data ++ s : List Char) = "range".data ++ '=' :: s from rfl]
      rw [List.filterMap]
      rw [splitOnChar_append (by decide), splitOnChar_of_not_mem he]
      simp [hnil]
    · intro hm
      rcases List.mem_append.mp hm with hm | hm
      · revert hm; decide
      · exact ha hm
  simp only [List.cons_append, List.nil_append] at e1 e2 e3 e4
  simp [do_GET, e1, e2, e3, e4, hs, List.lookup, fetch_and_update_map,
    get_disaster_range, update_disaster_range]

/-- C3 witness: the concrete request `update_disaster_range?range=500` against
the default store: the store is updated to 500 and the forced refresh that
runs before the response reads radius 500. -/
theorem C3_witness :
    pyInt "500".data = some 500 ∧
      do_GET ⟨3600, some 241⟩ 0 1
          ("/update_disaster_range?range=".data ++ "500".data) (.ok ()) =
        .ok ⟨⟨3600, some 500⟩, 0, some (some 500),
          .plain 200 "Disaster range updated and map refreshed".data⟩ :=
  ⟨rfl, C3_radius_update_synchronous ⟨3600, some 241⟩ 0 1 "500".data 500 rfl⟩

/-- C10: each single-field config update preserves the other field. -/
theorem C10_update_frame (c : Config) (v : Int) :
    get_disaster_range (update_refresh_interval c v) = get_disaster_range c ∧
      get_refresh_interval (update_disaster_range c v) = get_refresh_interval c :=
  ⟨rfl, rfl⟩

/-- Python's `math.radians`: degrees to radians. -/
noncomputable def radians (x : ℝ) : ℝ :=
  x * (Real.pi / 180)

/-- Python's `math.atan2` on exact reals. -/
noncomputable def atan2 (y x : ℝ) : ℝ :=
  if 0 < x then Real.arctan (y / x)
  else if x < 0 then
    (if 0 ≤ y then Real.arctan (y / x) + Real.pi else Real.arctan (y / x) - Real.pi)
  else
    (if 0 < y then Real.pi / 2 else if y < 0 then -(Real.pi / 2) else 0)

/-- The intermediate `a` of `haversine` (disaster_check2.py line 25). -/
noncomputable def hav_a (lat1 lon1 lat2 lon2 : ℝ) : ℝ :=
  Real.sin (radians (lat2 - lat1) / 2) ^ 2 +
    Real.cos (radians lat1) * Real.cos (radians lat2) *
      Real.sin (radians (lon2 - lon1) / 2) ^ 2

/-- The intermediate `c` of `haversine` (line 26). -/
noncomputable def hav_c (lat1 lon1 lat2 lon2 : ℝ) : ℝ :=
  2 * atan2 (Real.sqrt (hav_a lat1 lon1 lat2 lon2))
    (Real.sqrt (1 - hav_a lat1 lon1 lat2 lon2))

/-- Embeds `haversine` (disaster_check2.py lines 18-28; textually identical at
disaster_check.py lines 9-19), on exact reals. -/
noncomputable def haversine (lat1 lon1 lat2 lon2 : ℝ) : ℝ :=
  6378.1 * hav_c lat1 lon1 lat2 lon2

/-- One extracted disaster record (`extract_disaster_info`): a name, an event
type, and the raw two-element `coordinates` value from the feed, whose first
component `check_disaster_vicinity` unpacks as `disaster_lat` and second as
`disaster_lon`. -/
structure Disaster where
  name : List Char
  disaster_type : List Char
  coordinates : ℝ × ℝ

/-- Embeds `check_disaster_vicinity` (disaster_check2.py lines 30-39): walk
the disaster list and return `True` at the first disaster whose distance is
within `disaster_range` km, `False` when none is.  The result is the bare
boolean; no distance is part of it. -/
noncomputable def check_disaster_vicinity (company_lat company_lon : ℝ) :
    List Disaster → ℝ → Bool
  | [], _ => false
  | d :: rest, disaster_range =>
    if haversine company_lat company_lon d.coordinates.1 d.coordinates.2 ≤ disaster_range
    then true
    else check_disaster_vicinity company_lat company_lon rest disaster_range

/-- Spec-side definition, following the words of spec section 4.1: the minimum
`distance_km` from the location to any hazard, `+infinity` for the empty
hazard set - the second component the spec claims `is_in_jeopardy` returns. -/
noncomputable def spec_nearest_distance (company_lat company_lon : ℝ)
    (ds : List Disaster) : WithTop ℝ :=
  (ds.map fun d =>
    ((haversine company_lat company_lon d.coordinates.1 d.coordinates.2 : ℝ) :
      WithTop ℝ)).foldr min ⊤

/-- The haversine distance from a point to itself is zero. -/
theorem haversine_self (lat lon : ℝ) : haversine lat lon lat lon = 0 := by
  have ha : hav_a lat lon lat lon = 0 := by
    simp [hav_a, radians]
  rw [haversine, hav_c, ha, Real.sqrt_zero, sub_zero, Real.sqrt_one]
  rw [atan2, if_pos (by norm_num : (0 : ℝ) < 1)]
  simp

/-- The haversine distance is symmetric in its two coordinate pairs. -/
theorem haversine_comm (a b c d : ℝ) : haversine a b c d = haversine c d a b := by
  have key : hav_a a b c d = hav_a c d a b := by
    rw [hav_a, hav_a]
    have h1 : radians (c - a) / 2 = -(radians (a - c) / 2) := by
      rw [radians, radians]; ring
    have h2 : radians (d - b) / 2 = -(radians (b - d) / 2) := by
      rw [radians, radians]; ring
    rw [h1, h2, Real.sin_neg, Real.sin_neg]
    ring
  rw [haversine, haversine, hav_c, hav_c, key]

/-- Exact value of the embedded haversine between `(0, 0)` and `(0, 1)`: one
degree of longitude along the equator. -/
theorem haversine_equator_one_deg :
    haversine 0 0 0 1 = 6378.1 * (Real.pi / 180) := by
  have hpi := Real.pi_pos
  have ht0 : (0 : ℝ) < Real.pi / 360 := by linarith
  have ht1 : Real.pi / 360 < Real.pi / 2 := by linarith
  have hsin : 0 < Real.sin (Real.pi / 360) :=
    Real.sin_pos_of_pos_of_lt_pi ht0 (by linarith)
  have hcos : 0 < Real.cos (Real.pi / 360) :=
    Real.cos_pos_of_mem_Ioo ⟨by linarith, ht1⟩
  have harg : radians (1 - 0) / 2 = Real.pi / 360 := by
    rw [radians]; ring
  have ha : hav_a 0 0 0 1 = Real.sin (Real.pi / 360) ^ 2 := by
    rw [hav_a, harg]
    simp [radians]
  have h1a : Real.sqrt (hav_a 0 0 0 1) = Real.sin (Real.pi / 360) := by
    rw [ha, Real.sqrt_sq hsin.le]
  have h2a : Real.sqrt (1 - hav_a 0 0 0 1) = Real.cos (Real.pi / 360) := by
    rw [ha, ← Real.cos_sq', Real.sqrt_sq hcos.le]
  have hat : atan2 (Real.sin (Real.pi / 360)) (Real.cos (Real.pi / 360)) =
      Real.pi / 360 := by
    rw [atan2, if_pos hcos, ← Real.tan_eq_sin_div_cos,
      Real.arctan_tan (by linarith) ht1]
  rw [haversine, hav_c, h1a, h2a, hat]
  ring

/-- C9: the embedded haversine distance is zero between identical coordinates
and symmetric in its two coordinate arguments. -/
theorem C9_distance_contract :
    (∀ lat lon : ℝ, haversine lat lon lat lon = 0) ∧
      ∀ a b c d : ℝ, haversine a b c d = haversine c d a b :=
  ⟨haversine_self, haversine_comm⟩

/-- C5 (amended): `check_disaster_vicinity` returns a bare boolean, true
exactly when the spec-side minimum distance to a hazard is at most the range
(in particular false on the empty hazard list, whose spec-side minimum is
`+infinity`); the nearest distance itself is not part of the result. -/
theorem C5_vicinity_iff_min (company_lat company_lon disaster_range : ℝ) :
    (∀ ds : List Disaster,
        check_disaster_vicinity company_lat company_lon ds disaster_range = true ↔
          spec_nearest_distance company_lat company_lon ds ≤
            (disaster_range : WithTop ℝ)) ∧
      check_disaster_vicinity company_lat company_lon [] disaster_range = false ∧
      spec_nearest_distance company_lat company_lon [] = ⊤ := by
  refine ⟨fun ds => ?_, rfl, rfl⟩
  induction ds with
  | nil =>
    constructor
    · intro h
      cases h
    · intro h
      exact absurd (top_le_iff.mp h) (WithTop.coe_ne_top)
  | cons d rest ih =>
    have hexp : spec_nearest_distance company_lat company_lon (d :: rest) =
        min ((haversine company_lat company_lon d.coordinates.1 d.coordinates.2 : ℝ) :
          WithTop ℝ) (spec_nearest_distance company_lat company_lon rest) := rfl
    rw [hexp, min_le_iff]
    by_cases h : haversine company_lat company_lon d.coordinates.1 d.coordinates.2 ≤
        disaster_range
    · rw [check_disaster_vicinity, if_pos h]
      exact ⟨fun _ => Or.inl (WithTop.coe_le_coe.mpr h), fun _ => rfl⟩
    · rw [check_disaster_vicinity, if_neg h, ih]
      constructor
      · exact Or.inr
      · intro hor
        exact hor.resolve_left fun hc => h (WithTop.coe_le_coe.mp hc)

/-- C5 counterexample: two hazard lists on which `check_disaster_vicinity`
returns the identical value `true` although the claimed nearest-distance
components differ (0 km versus one equatorial degree, about 111 km, both
within the 241 km radius); the code's return value therefore cannot be the
claimed pair carrying the minimum distance. -/
theorem C5_counterexample :
    check_disaster_vicinity 0 0 [⟨"a".data, "EQ".data, (0, 0)⟩] 241 = true ∧
      check_disaster_vicinity 0 0 [⟨"b".data, "EQ".data, (0, 1)⟩] 241 = true ∧
      spec_nearest_distance 0 0 [⟨"a".data, "EQ".data, (0, 0)⟩] ≠
        spec_nearest_distance 0 0 [⟨"b".data, "EQ".data, (0, 1)⟩] := by
  have h0 : haversine 0 0 0 0 = 0 := haversine_self 0 0
  have h1 : haversine 0 0 0 1 = 6378.1 * (Real.pi / 180) := haversine_equator_one_deg
  have hpos : 0 < haversine 0 0 0 1 := by
    rw [h1]
    nlinarith [Real.pi_pos]
  have hle : haversine 0 0 0 1 ≤ 241 := by
    rw [h1]
    nlinarith [Real.pi_lt_d2]
  have n0 : spec_nearest_distance 0 0 [⟨"a".data, "EQ".data, (0, 0)⟩] =
      ((0 : ℝ) : WithTop ℝ) := by
    show min ((haversine 0 0 0 0 : ℝ) : WithTop ℝ) ⊤ = ((0 : ℝ) : WithTop ℝ)
    rw [h0, min_eq_left le_top]
  have n1 : spec_nearest_distance 0 0 [⟨"b".data, "EQ".data, (0, 1)⟩] =
      ((haversine 0 0 0 1 : ℝ) : WithTop ℝ) := by
    show min ((haversine 0 0 0 1 : ℝ) : WithTop ℝ) ⊤ = _
    rw [min_eq_left le_top]
  refine ⟨?_, ?_, ?_⟩
  · show (if haversine 0 0 0 0 ≤ (241 : ℝ) then true
      else check_disaster_vicinity 0 0 [] 241) = true
    rw [if_pos (by rw [h0]; norm_num)]
  · show (if haversine 0 0 0 1 ≤ (241 : ℝ) then true
      else check_disaster_vicinity 0 0 [] 241) = true
    rw [if_pos hle]
  · rw [n0, n1]
    intro hc
    have := WithTop.coe_eq_coe.mp hc
    linarith

end DisasterCheck
